import Mathlib

/-!
Verification of the smol-rgb color library (`src/lib.rs`) against its
natural-language specification.

The library converts colors between an 8-bit-per-channel encoded (gamma
compressed) sRGB representation and a 32-bit-float-per-channel linear
representation.  The Rust source computes with IEEE-754 `f32` values; this
development shallowly embeds those computations using exact rational
arithmetic:

* `Q` is an executable rational number type (integer numerator over natural
  denominator, not kept in lowest terms) on which the Lean kernel can
  evaluate; every `f32` decimal literal of the source becomes the exact
  rational value of that literal.
* `F` wraps `Q` with the IEEE special values NaN and ±infinity so that the
  totality and saturation behaviour of Rust's float-to-integer `as` casts
  can be stated for every float input.
* The library's single call to the transcendental `powf` (whose bit-exact
  behaviour the source does not pin down: it is `libm::powf` or
  `f32::powf` depending on crate features) is modelled as an explicit
  function parameter; theorems that depend on its value take an accuracy
  hypothesis giving rational bounds on the returned value, and each such
  theorem is instantiated with a concrete witness satisfying the bounds.

Machine integers are modelled as `Nat` / `Fin 256` (a Rust `u8` is exactly
a `Fin 256`); the `u32` packings assume the little-endian byte order that
the source documents itself against.
-/

set_option maxRecDepth 100000

/-- Exact rational arithmetic carrier used to embed `f32` values: numerator
over (positive, by construction) denominator, not reduced.  All operations
are plain structural arithmetic so that the kernel can evaluate them. -/
structure Q where
  num : Int
  den : Nat
deriving DecidableEq

instance : OfNat Q n := ⟨⟨Int.ofNat n, 1⟩⟩

/-- Decimal literals such as `0.0031308` denote the exact rational value of
the literal (the Rust source's `f32` literals, embedded exactly). -/
instance : OfScientific Q :=
  ⟨fun m b e => if b then ⟨Int.ofNat m, 10 ^ e⟩ else ⟨Int.ofNat (m * 10 ^ e), 1⟩⟩

instance : Mul Q := ⟨fun a b => ⟨a.num * b.num, a.den * b.den⟩⟩

instance : Add Q := ⟨fun a b => ⟨a.num * b.den + b.num * a.den, a.den * b.den⟩⟩

instance : Sub Q := ⟨fun a b => ⟨a.num * b.den - b.num * a.den, a.den * b.den⟩⟩

instance : Div Q :=
  ⟨fun a b =>
    if 0 ≤ b.num then ⟨a.num * b.den, a.den * b.num.toNat⟩
    else ⟨-(a.num * b.den), a.den * (-b.num).toNat⟩⟩

instance : LE Q := ⟨fun a b => a.num * b.den ≤ b.num * a.den⟩

instance : LT Q := ⟨fun a b => a.num * b.den < b.num * a.den⟩

instance (a b : Q) : Decidable (a ≤ b) :=
  inferInstanceAs (Decidable (a.num * b.den ≤ b.num * a.den))

instance (a b : Q) : Decidable (a < b) :=
  inferInstanceAs (Decidable (a.num * b.den < b.num * a.den))

/-- Embedding of a natural number (for example a `u8` channel value cast to
float) as a rational. -/
def natQ (n : Nat) : Q := ⟨Int.ofNat n, 1⟩

/-- Floor `⌊a⌋` computed executably by floor division of the numerator by the
denominator. -/
def Q.floor (a : Q) : Int := Int.fdiv a.num a.den

/-- Power `a ^ n` on the rational carrier. -/
def Q.qpow (a : Q) (n : Nat) : Q := ⟨a.num ^ n, a.den ^ n⟩

/-- Round to the nearest integer, half away from zero rounding up: the
"round" operation the specification ascribes to the alpha conversion. -/
def Q.qround (a : Q) : Int := Q.floor (a + (0.5 : Q))

/-- Well-formedness of `a`: its denominator is positive.  Every rational built
from literals and the arithmetic above satisfies this. -/
def Q.Wf (a : Q) : Prop := 0 < a.den

instance (a : Q) : Decidable a.Wf := inferInstanceAs (Decidable (0 < a.den))

/-- The real number denoted by a `Q` (junk, namely division by zero, when
the denominator is `0`). -/
noncomputable def Q.rval (a : Q) : ℝ := (a.num : ℝ) / (a.den : ℝ)

/-- An embedded `f32` value: either a finite value carried exactly as a
rational, or one of the IEEE special values NaN, +∞, −∞. -/
inductive F where
  | fin (q : Q)
  | nan
  | inf
  | ninf
deriving DecidableEq

/-- IEEE comparison `a >= b` (any comparison with NaN is false). -/
def F.ge : F → F → Bool
  | .nan, _ => false
  | _, .nan => false
  | .inf, _ => true
  | _, .inf => false
  | _, .ninf => true
  | .ninf, _ => false
  | .fin a, .fin b => decide (b ≤ a)

/-- IEEE multiplication on embedded values (finite × finite is exact;
NaN propagates; ∞ × 0 is NaN). -/
def F.mul : F → F → F
  | .nan, _ => .nan
  | _, .nan => .nan
  | .fin a, .fin b => .fin (a * b)
  | .inf, .inf => .inf
  | .inf, .ninf => .ninf
  | .ninf, .inf => .ninf
  | .ninf, .ninf => .inf
  | .inf, .fin b => if (0:Q) < b then .inf else if b < (0:Q) then .ninf else .nan
  | .fin a, .inf => if (0:Q) < a then .inf else if a < (0:Q) then .ninf else .nan
  | .ninf, .fin b => if (0:Q) < b then .ninf else if b < (0:Q) then .inf else .nan
  | .fin a, .ninf => if (0:Q) < a then .ninf else if a < (0:Q) then .inf else .nan

/-- IEEE subtraction on embedded values (finite − finite is exact; NaN
propagates; ∞ − ∞ is NaN). -/
def F.sub : F → F → F
  | .nan, _ => .nan
  | _, .nan => .nan
  | .fin a, .fin b => .fin (a - b)
  | .inf, .inf => .nan
  | .ninf, .ninf => .nan
  | .inf, _ => .inf
  | .ninf, _ => .ninf
  | .fin _, .inf => .ninf
  | .fin _, .ninf => .inf

/-- Rust's saturating float-to-`u8` `as` cast: truncate toward zero, clamp
to `0..=255`, NaN goes to `0`.  (Truncation toward zero and clamping agree
with `min 255 ⌊q⌋` then `Int.toNat`: negative values land at `0` either
way.) -/
def F.castU8 : F → Fin 256
  | .fin q => ⟨(min 255 (Q.floor q)).toNat, by omega⟩
  | .nan => ⟨0, by omega⟩
  | .inf => ⟨255, by omega⟩
  | .ninf => ⟨0, by omega⟩

/-- The embedded value is finite with a positive denominator (true of every
value an actual `f32` computation can denote). -/
def F.Wf : F → Prop
  | .fin q => q.Wf
  | _ => True

instance (x : F) : Decidable x.Wf := by
  cases x <;> simp [F.Wf] <;> infer_instance

/-- The finite value lies in the closed rational interval `[lo, hi]` (and is
well formed). -/
def F.inIcc (x : F) (lo hi : Q) : Prop :=
  match x with
  | .fin q => 0 < q.den ∧ lo ≤ q ∧ q ≤ hi
  | _ => False

instance (x : F) (lo hi : Q) : Decidable (x.inIcc lo hi) := by
  cases x <;> simp [F.inIcc] <;> infer_instance

/-- The (scaled) value is negative or NaN — the inputs the narrowing cast
must send to `0`. -/
def F.isNegOrNaN : F → Prop
  | .fin q => q < (0 : Q)
  | .nan => True
  | .ninf => True
  | .inf => False

instance (x : F) : Decidable x.isNegOrNaN := by
  cases x <;> simp [F.isNegOrNaN] <;> infer_instance

/-- The 256-entry lookup table of `src/lib.rs` (`ENCODED_TO_LINEAR_LUT`):
each entry is the exact rational value of the `f32` decimal literal written
in the source. -/
def ENCODED_TO_LINEAR_LUT : List Q :=
  [0.0, 0.000303527, 0.000607054, 0.000910581, 0.001214108, 0.001517635, 0.001821162, 0.0021246888,
   0.002428216, 0.0027317428, 0.00303527, 0.0033465358, 0.0036765074, 0.004024717, 0.004391442, 0.0047769533,
   0.0051815165, 0.0056053917, 0.006048833, 0.0065120906, 0.00699541, 0.007499032, 0.008023193, 0.008568126,
   0.009134059, 0.009721218, 0.010329823, 0.010960094, 0.011612245, 0.012286488, 0.0129830325, 0.013702083,
   0.014443844, 0.015208514, 0.015996294, 0.016807375, 0.017641954, 0.01850022, 0.019382361, 0.020288562,
   0.02121901, 0.022173885, 0.023153367, 0.024157632, 0.02518686, 0.026241222, 0.027320892, 0.02842604,
   0.029556835, 0.030713445, 0.031896032, 0.033104766, 0.034339808, 0.035601314, 0.03688945, 0.038204372,
   0.039546236, 0.0409152, 0.04231141, 0.04373503, 0.045186203, 0.046665087, 0.048171826, 0.049706567,
   0.051269457, 0.052860647, 0.054480277, 0.05612849, 0.05780543, 0.059511237, 0.061246052, 0.063010015,
   0.064803265, 0.06662594, 0.06847817, 0.070360094, 0.07227185, 0.07421357, 0.07618538, 0.07818742,
   0.08021982, 0.08228271, 0.08437621, 0.08650046, 0.08865558, 0.09084171, 0.093058966, 0.09530747,
   0.09758735, 0.099898726, 0.10224173, 0.104616486, 0.107023105, 0.10946171, 0.11193243, 0.114435375,
   0.116970666, 0.11953843, 0.122138776, 0.12477182, 0.12743768, 0.13013647, 0.13286832, 0.13563333,
   0.13843161, 0.14126329, 0.14412847, 0.14702727, 0.14995979, 0.15292615, 0.15592647, 0.15896083,
   0.16202937, 0.1651322, 0.1682694, 0.17144111, 0.1746474, 0.17788842, 0.18116425, 0.18447499,
   0.18782078, 0.19120169, 0.19461784, 0.19806932, 0.20155625, 0.20507874, 0.20863687, 0.21223076,
   0.2158605, 0.2195262, 0.22322796, 0.22696587, 0.23074006, 0.23455058, 0.23839757, 0.24228112,
   0.24620132, 0.25015828, 0.2541521, 0.25818285, 0.26225066, 0.2663556, 0.2704978, 0.2746773,
   0.27889428, 0.28314874, 0.28744084, 0.29177064, 0.29613826, 0.30054379, 0.3049873, 0.30946892,
   0.31398872, 0.31854677, 0.3231432, 0.3277781, 0.33245152, 0.33716363, 0.34191442, 0.34670407,
   0.3515326, 0.35640013, 0.3613068, 0.3662526, 0.3712377, 0.37626213, 0.38132602, 0.38642943,
   0.39157248, 0.39675522, 0.40197778, 0.4072402, 0.4125426, 0.41788507, 0.42326766, 0.4286905,
   0.43415365, 0.43965718, 0.4452012, 0.4507858, 0.45641103, 0.462077, 0.4677838, 0.47353148,
   0.47932017, 0.48514995, 0.49102086, 0.49693298, 0.5028865, 0.50888133, 0.5149177, 0.52099556,
   0.5271151, 0.5332764, 0.5394795, 0.54572445, 0.55201143, 0.5583404, 0.5647115, 0.57112485,
   0.57758045, 0.58407843, 0.59061885, 0.59720176, 0.60382736, 0.61049557, 0.6172066, 0.6239604,
   0.63075715, 0.63759685, 0.6444797, 0.65140563, 0.65837485, 0.6653873, 0.67244315, 0.6795425,
   0.6866853, 0.69387174, 0.7011019, 0.70837575, 0.7156935, 0.7230551, 0.73046076, 0.7379104,
   0.7454042, 0.7529422, 0.7605245, 0.76815116, 0.7758222, 0.7835378, 0.7912979, 0.7991027,
   0.80695224, 0.8148466, 0.82278574, 0.8307699, 0.838799, 0.8468732, 0.8549926, 0.8631572,
   0.8713671, 0.8796224, 0.8879231, 0.8962694, 0.9046612, 0.91309863, 0.92158186, 0.9301109,
   0.9386857, 0.9473065, 0.9559733, 0.9646863, 0.9734453, 0.9822506, 0.9911021, 1.0]

/-- Function `encoded_to_linear` of the source: the forward transfer is an index
into the lookup table (`ENCODED_TO_LINEAR_LUT[c as usize]`). -/
def encoded_to_linear (c : Fin 256) : Q := ENCODED_TO_LINEAR_LUT.getD c.val 0

/-- The intermediate value `encoded_f32 * 256.0` of `linear_to_encoded` in
the source, with the call to `powf` abstracted as a parameter:
`encoded_f32` is `1.055 * powf(input, 1.0 / 2.4) - 0.055` when
`input >= 0.0031308` and `12.92 * input` otherwise. -/
def encoded_f32_scaled (powf : F → F → F) (input : F) : F :=
  F.mul
    (if F.ge input (F.fin (0.0031308 : Q)) then
      F.sub (F.mul (F.fin (1.055 : Q)) (powf input (F.fin ((1.0 : Q) / (2.4 : Q)))))
        (F.fin (0.055 : Q))
    else
      F.mul (F.fin (12.92 : Q)) input)
    (F.fin (256.0 : Q))

/-- Function `linear_to_encoded` of the source: the reverse transfer computes
`encoded_f32` by the branch above, multiplies by `256.0` (not `255.0`) and
narrows the product to `u8` with Rust's saturating `as` cast. -/
def linear_to_encoded (powf : F → F → F) (input : F) : Fin 256 :=
  F.castU8 (encoded_f32_scaled powf input)

/-- Type `EncodedColor` of the source: four `u8` channels `r, g, b, a`. -/
structure EncodedColor where
  r : Fin 256
  g : Fin 256
  b : Fin 256
  a : Fin 256
deriving DecidableEq

/-- Constructor `EncodedColor::new`. -/
def EncodedColor.new (r g b a : Fin 256) : EncodedColor := ⟨r, g, b, a⟩

/-- Type `LinearColor` of the source: four `f32` channels `r, g, b, a`. -/
structure LinearColor where
  r : F
  g : F
  b : F
  a : F
deriving DecidableEq

/-- Constructor `LinearColor::new`. -/
def LinearColor.new (r g b a : F) : LinearColor := ⟨r, g, b, a⟩

/-- Method `EncodedColor::to_linear`: `r`, `g`, `b` go through `encoded_to_linear`;
the alpha channel is `self.a as f32 / 255.0`. -/
def EncodedColor.to_linear (self : EncodedColor) : LinearColor :=
  ⟨F.fin (encoded_to_linear self.r),
   F.fin (encoded_to_linear self.g),
   F.fin (encoded_to_linear self.b),
   F.fin (natQ self.a.val / (255.0 : Q))⟩

/-- Method `LinearColor::to_encoded_space`: `r`, `g`, `b` go through
`linear_to_encoded`; the alpha channel is `(self.a * 255.0) as u8`. -/
def LinearColor.to_encoded_space (powf : F → F → F) (self : LinearColor) : EncodedColor :=
  ⟨linear_to_encoded powf self.r,
   linear_to_encoded powf self.g,
   linear_to_encoded powf self.b,
   F.castU8 (F.mul self.a (F.fin (255.0 : Q)))⟩

/-- Method `EncodedColor::to_rgba_u32`: the bytes array `[a, b, g, r]` (indices
0..3) read back with `u32::from_ne_bytes` on the little-endian platforms the
source documents itself against, so byte 0 (`a`) is least significant and
byte 3 (`r`) most significant. -/
def EncodedColor.to_rgba_u32 (self : EncodedColor) : Nat :=
  self.a.val + 2 ^ 8 * self.b.val + 2 ^ 16 * self.g.val + 2 ^ 24 * self.r.val

/-- Method `EncodedColor::from_rgba_u32`: `r` is byte 3 (most significant), `g`
byte 2, `b` byte 1, `a` byte 0 (least significant) of the little-endian
byte decomposition. -/
def EncodedColor.from_rgba_u32 (input : Nat) : EncodedColor :=
  ⟨⟨input / 2 ^ 24 % 256, by omega⟩,
   ⟨input / 2 ^ 16 % 256, by omega⟩,
   ⟨input / 2 ^ 8 % 256, by omega⟩,
   ⟨input % 256, by omega⟩⟩

/-- Method `EncodedColor::to_bgra_u32`: the bytes array has `a` at index 0, `r` at
index 1, `g` at index 2, `b` at index 3. -/
def EncodedColor.to_bgra_u32 (self : EncodedColor) : Nat :=
  self.a.val + 2 ^ 8 * self.r.val + 2 ^ 16 * self.g.val + 2 ^ 24 * self.b.val

/-- Method `EncodedColor::from_bgra_u32`: `r` is byte 1, `g` byte 2, `b` byte 3,
`a` byte 0. -/
def EncodedColor.from_bgra_u32 (input : Nat) : EncodedColor :=
  ⟨⟨input / 2 ^ 8 % 256, by omega⟩,
   ⟨input / 2 ^ 16 % 256, by omega⟩,
   ⟨input / 2 ^ 24 % 256, by omega⟩,
   ⟨input % 256, by omega⟩⟩

/-- Most significant byte of a packed 32-bit value. -/
def msbByte (n : Nat) : Nat := n / 2 ^ 24 % 256

/-- Least significant byte of a packed 32-bit value. -/
def lsbByte (n : Nat) : Nat := n % 256

/-- Little-endian hexadecimal digits of `n` (`[]` for `0`); fuel `8` covers
every `u32`. -/
def hexDigitsAux : Nat → Nat → List Nat
  | 0, _ => []
  | fuel + 1, n => if n = 0 then [] else n % 16 :: hexDigitsAux fuel (n / 16)

/-- Little-endian hexadecimal digits of a value of at most 32 bits. -/
def hexDigitsLE (n : Nat) : List Nat := hexDigitsAux 8 n

/-- A single lowercase hexadecimal digit character. -/
def hexCharLower (d : Nat) : Char :=
  if d < 10 then Char.ofNat (48 + d) else Char.ofNat (87 + d)

/-- A single uppercase hexadecimal digit character. -/
def hexCharUpper (d : Nat) : Char :=
  if d < 10 then Char.ofNat (48 + d) else Char.ofNat (55 + d)

/-- Rust's `{:x}` formatting of an unsigned integer: lowercase hex digits,
no leading zeros, `"0"` for zero. -/
def hexStringLower (n : Nat) : String :=
  if n = 0 then "0" else ⟨((hexDigitsLE n).map hexCharLower).reverse⟩

/-- Rust's `{:X}` formatting of an unsigned integer: uppercase hex digits,
no leading zeros, `"0"` for zero. -/
def hexStringUpper (n : Nat) : String :=
  if n = 0 then "0" else ⟨((hexDigitsLE n).map hexCharUpper).reverse⟩

/-- The `Display` implementation for `EncodedColor`:
`"r: {}, g: {}, b: {}, a: {}, {:x}{:x}{:x}{:x}"` applied to
`r, g, b, a, r, g, b, a` — note the trailing hex part formats each channel
separately (each unpadded), not the packed 32-bit value. -/
def encodedDisplay (c : EncodedColor) : String :=
  "r: " ++ Nat.repr c.r.val ++ ", g: " ++ Nat.repr c.g.val ++
    ", b: " ++ Nat.repr c.b.val ++ ", a: " ++ Nat.repr c.a.val ++ ", " ++
    hexStringLower c.r.val ++ hexStringLower c.g.val ++
    hexStringLower c.b.val ++ hexStringLower c.a.val

/-- The `LowerHex` implementation for `EncodedColor`: formats
`self.to_rgba_u32()` with `{:x}`. -/
def encodedLowerHex (c : EncodedColor) : String := hexStringLower c.to_rgba_u32

/-- The `UpperHex` implementation for `EncodedColor` under the alternate
flag (`{:#X}` as in the source's test): `"0x"` followed by the uppercase
hex digits of `self.to_rgba_u32()`. -/
def encodedUpperHexAlt (c : EncodedColor) : String :=
  "0x" ++ hexStringUpper c.to_rgba_u32

/-- One element of a self-describing serialized sequence, as far as `u8`
deserialization is concerned: an integer scalar, or any other scalar (a
fractional number, etc.) that no `u8` can represent. -/
inductive SeqElem where
  | int (n : Int)
  | nonIntScalar
deriving DecidableEq

/-- The element is representable as an unsigned byte. -/
def SeqElem.validU8 : SeqElem → Prop
  | .int n => 0 ≤ n ∧ n < 256
  | .nonIntScalar => False

instance (e : SeqElem) : Decidable e.validU8 := by
  cases e <;> simp [SeqElem.validU8] <;> infer_instance

/-- Deserialization errors: serde's invalid-length error (carrying how many
elements were found) and its invalid-value error. -/
inductive DeError where
  | invalidLength (found : Nat)
  | invalidValue
deriving DecidableEq

/-- Model of `seq.next_element::<u8>()`: `Ok(None)` at the end of the sequence, an
invalid-value error if the next element is not an unsigned byte, otherwise
the byte and the rest of the sequence. -/
def nextElementU8 : List SeqElem → Except DeError (Option (Fin 256) × List SeqElem)
  | [] => .ok (none, [])
  | .int n :: rest =>
    if h : 0 ≤ n ∧ n < 256 then .ok (some ⟨n.toNat, by omega⟩, rest)
    else .error .invalidValue
  | .nonIntScalar :: _ => .error .invalidValue

/-- The `visit_seq` body of the source's `Deserialize` implementation: four
`next_element` calls, each `ok_or`-ed into an invalid-length error naming
the number of elements read so far. -/
def visitSeq (xs : List SeqElem) : Except DeError (EncodedColor × List SeqElem) :=
  match nextElementU8 xs with
  | .error e => .error e
  | .ok (none, _) => .error (.invalidLength 0)
  | .ok (some r, xs1) =>
    match nextElementU8 xs1 with
    | .error e => .error e
    | .ok (none, _) => .error (.invalidLength 1)
    | .ok (some g, xs2) =>
      match nextElementU8 xs2 with
      | .error e => .error e
      | .ok (none, _) => .error (.invalidLength 2)
      | .ok (some b, xs3) =>
        match nextElementU8 xs3 with
        | .error e => .error e
        | .ok (none, _) => .error (.invalidLength 3)
        | .ok (some a, xs4) => .ok (EncodedColor.new r g b a, xs4)

/-- Modelled from the spec: the serde data-format driver for
`deserialize_tuple_struct` with length 4 on a self-describing sequence
format (the part of deserialization that lives in serde and the format
crate, not in `src/lib.rs`).  It runs the visitor and rejects a sequence
the visitor did not consume completely with an invalid-length error, as the
specification's "fewer, more ... are rejected" requires and the source's
serde tests exercise. -/
def deserializeEncodedColor (xs : List SeqElem) : Except DeError EncodedColor :=
  match visitSeq xs with
  | .error e => .error e
  | .ok (c, rest) => if rest.isEmpty then .ok c else .error (.invalidLength xs.length)

/-- The sequence a color serializes to (`r, g, b, a` in order), used to
state the success case of deserialization. -/
def encodedColorSeq (c : EncodedColor) : List SeqElem :=
  [.int c.r.val, .int c.g.val, .int c.b.val, .int c.a.val]

/-- Constant `f32::EPSILON = 2⁻²³` as an exact rational (the literal is the exact
decimal expansion of `2⁻²³`). -/
def epsF32 : Q := 0.00000011920928955078125

/-- Closeness: `a` is within `e` of `b` (both differences strictly below `e`). -/
def Q.within (a b e : Q) : Prop := a - b < e ∧ b - a < e

instance (a b e : Q) : Decidable (a.within b e) :=
  inferInstanceAs (Decidable (_ ∧ _))

/-- Value `(c/255 + 0.055) / 1.055` as a single exact fraction, for the
certificate checks of the forward-transfer formula. -/
def tQ (c : Nat) : Q := ⟨Int.ofNat (1000 * c + 14025), 269025⟩

/-- Value `(c/255) / 12.92` as a single exact fraction (the low branch of the
forward-transfer formula). -/
def lowQ (c : Nat) : Q := ⟨Int.ofNat (100 * c), 329460⟩

/-- Rational certificate pairs `(r, s)` for `c = 11, …, 255`: the entry for
`c` brackets `tQ c ^ 2.4` via `r⁵ ≤ (tQ c)¹² ≤ s⁵`, and both ends are
within `f32` epsilon of the lookup-table entry. -/
def c1Certs : List (Q × Q) :=
  [(0.003346535761, 0.003346535766), (0.003676507322, 0.003676507327), (0.004024717016, 0.004024717021),
   (0.004391442035, 0.004391442040), (0.004776953478, 0.004776953483), (0.005181516700, 0.005181516705),
   (0.005605391622, 0.005605391627), (0.006048833020, 0.006048833025), (0.006512090790, 0.006512090795),
   (0.006995410185, 0.006995410190), (0.007499032041, 0.007499032046), (0.008023192983, 0.008023192988),
   (0.008568125616, 0.008568125621), (0.009134058700, 0.009134058705), (0.009721217318, 0.009721217323),
   (0.010329823027, 0.010329823032), (0.010960094004, 0.010960094009), (0.011612245177, 0.011612245182),
   (0.012286488354, 0.012286488359), (0.012983032340, 0.012983032345), (0.013702083045, 0.013702083050),
   (0.014443843594, 0.014443843599), (0.015208514420, 0.015208514425), (0.015996293363, 0.015996293368),
   (0.016807375750, 0.016807375755), (0.017641954486, 0.017641954491), (0.018500220126, 0.018500220131),
   (0.019382360954, 0.019382360959), (0.020288563054, 0.020288563059), (0.021219010374, 0.021219010379),
   (0.022173884791, 0.022173884796), (0.023153366176, 0.023153366181), (0.024157632446, 0.024157632451),
   (0.025186859625, 0.025186859630), (0.026241221892, 0.026241221897), (0.027320891637, 0.027320891642),
   (0.028426039502, 0.028426039507), (0.029556834435, 0.029556834440), (0.030713443730, 0.030713443735),
   (0.031896033071, 0.031896033076), (0.033104766568, 0.033104766573), (0.034339806806, 0.034339806811),
   (0.035601314873, 0.035601314878), (0.036889450399, 0.036889450404), (0.038204371593, 0.038204371598),
   (0.039546235274, 0.039546235279), (0.040915196904, 0.040915196909), (0.042311410618, 0.042311410623),
   (0.043735029254, 0.043735029259), (0.045186204383, 0.045186204388), (0.046665086334, 0.046665086339),
   (0.048171824224, 0.048171824229), (0.049706565982, 0.049706565987), (0.051269458372, 0.051269458377),
   (0.052860647021, 0.052860647026), (0.054480276440, 0.054480276445), (0.056128490047, 0.056128490052),
   (0.057805430189, 0.057805430194), (0.059511238160, 0.059511238165), (0.061246054229, 0.061246054234),
   (0.063010017651, 0.063010017656), (0.064803266690, 0.064803266695), (0.066625938641, 0.066625938646),
   (0.068478169842, 0.068478169847), (0.070360095694, 0.070360095699), (0.072271850680, 0.072271850685),
   (0.074213568378, 0.074213568383), (0.076185381479, 0.076185381484), (0.078187421803, 0.078187421808),
   (0.080219820312, 0.080219820317), (0.082282707127, 0.082282707132), (0.084376211542, 0.084376211547),
   (0.086500462034, 0.086500462039), (0.088655586283, 0.088655586288), (0.090841711181, 0.090841711186),
   (0.093058962844, 0.093058962849), (0.095307466628, 0.095307466633), (0.097587347139, 0.097587347144),
   (0.099898728245, 0.099898728250), (0.102241733086, 0.102241733091), (0.104616484089, 0.104616484094),
   (0.107023102976, 0.107023102981), (0.109461710776, 0.109461710781), (0.111932427834, 0.111932427839),
   (0.114435373824, 0.114435373829), (0.116970667756, 0.116970667761), (0.119538427986, 0.119538427991),
   (0.122138772227, 0.122138772232), (0.124771817558, 0.124771817563), (0.127437680433, 0.127437680438),
   (0.130136476688, 0.130136476693), (0.132868321551, 0.132868321556), (0.135633329653, 0.135633329658),
   (0.138431615030, 0.138431615035), (0.141263291138, 0.141263291143), (0.144128470856, 0.144128470861),
   (0.147027266495, 0.147027266500), (0.149959789808, 0.149959789813), (0.152926151994, 0.152926151999),
   (0.155926463705, 0.155926463710), (0.158960835058, 0.158960835063), (0.162029375637, 0.162029375642),
   (0.165132194499, 0.165132194504), (0.168269400187, 0.168269400192), (0.171441100730, 0.171441100735),
   (0.174647403653, 0.174647403658), (0.177888415981, 0.177888415986), (0.181164244247, 0.181164244252),
   (0.184474994498, 0.184474994503), (0.187820772298, 0.187820772303), (0.191201682738, 0.191201682743),
   (0.194617830439, 0.194617830444), (0.198069319557, 0.198069319562), (0.201556253792, 0.201556253797),
   (0.205078736388, 0.205078736393), (0.208636870143, 0.208636870148), (0.212230757412, 0.212230757417),
   (0.215860500111, 0.215860500116), (0.219526199727, 0.219526199732), (0.223227957314, 0.223227957319),
   (0.226965873508, 0.226965873513), (0.230740048522, 0.230740048527), (0.234550582159, 0.234550582164),
   (0.238397573810, 0.238397573815), (0.242281122463, 0.242281122468), (0.246201326705, 0.246201326710),
   (0.250158284727, 0.250158284732), (0.254152094328, 0.254152094333), (0.258182852919, 0.258182852924),
   (0.262250657527, 0.262250657532), (0.266355604800, 0.266355604805), (0.270497791011, 0.270497791016),
   (0.274677312058, 0.274677312063), (0.278894263474, 0.278894263479), (0.283148740427, 0.283148740432),
   (0.287440837724, 0.287440837729), (0.291770649815, 0.291770649820), (0.296138270796, 0.296138270801),
   (0.300543794413, 0.300543794418), (0.304987314067, 0.304987314072), (0.309468922815, 0.309468922820),
   (0.313988713373, 0.313988713378), (0.318546778123, 0.318546778128), (0.323143209110, 0.323143209115),
   (0.327778098054, 0.327778098059), (0.332451536344, 0.332451536349), (0.337163615046, 0.337163615051),
   (0.341914424906, 0.341914424911), (0.346704056353, 0.346704056358), (0.351532599498, 0.351532599503),
   (0.356400144143, 0.356400144148), (0.361306779781, 0.361306779786), (0.366252595596, 0.366252595601),
   (0.371237680472, 0.371237680477), (0.376262122988, 0.376262122993), (0.381326011430, 0.381326011435),
   (0.386429433785, 0.386429433790), (0.391572477747, 0.391572477752), (0.396755230723, 0.396755230728),
   (0.401977779830, 0.401977779835), (0.407240211899, 0.407240211904), (0.412542613481, 0.412542613486),
   (0.417885070846, 0.417885070851), (0.423267669984, 0.423267669989), (0.428690496611, 0.428690496616),
   (0.434153636172, 0.434153636177), (0.439657173838, 0.439657173843), (0.445201194514, 0.445201194519),
   (0.450785782836, 0.450785782841), (0.456411023178, 0.456411023183), (0.462076999652, 0.462076999657),
   (0.467783796110, 0.467783796115), (0.473531496146, 0.473531496151), (0.479320183098, 0.479320183103),
   (0.485149940054, 0.485149940059), (0.491020849845, 0.491020849850), (0.496932995058, 0.496932995063),
   (0.502886458030, 0.502886458035), (0.508881320852, 0.508881320857), (0.514917665374, 0.514917665379),
   (0.520995573202, 0.520995573207), (0.527115125703, 0.527115125708), (0.533276404008, 0.533276404013),
   (0.539479489010, 0.539479489015), (0.545724461368, 0.545724461373), (0.552011401509, 0.552011401514),
   (0.558340389632, 0.558340389637), (0.564711505702, 0.564711505707), (0.571124829462, 0.571124829467),
   (0.577580440427, 0.577580440432), (0.584078417889, 0.584078417894), (0.590618840917, 0.590618840922),
   (0.597201788361, 0.597201788366), (0.603827338853, 0.603827338858), (0.610495570805, 0.610495570810),
   (0.617206562417, 0.617206562422), (0.623960391673, 0.623960391678), (0.630757136344, 0.630757136349),
   (0.637596873992, 0.637596873997), (0.644479681968, 0.644479681973), (0.651405637417, 0.651405637422),
   (0.658374817277, 0.658374817282), (0.665387298280, 0.665387298285), (0.672443156955, 0.672443156960),
   (0.679542469631, 0.679542469636), (0.686685312433, 0.686685312438), (0.693871761289, 0.693871761294),
   (0.701101891930, 0.701101891935), (0.708375779889, 0.708375779894), (0.715693500504, 0.715693500509),
   (0.723055128919, 0.723055128924), (0.730460740088, 0.730460740093), (0.737910408770, 0.737910408775),
   (0.745404209538, 0.745404209543), (0.752942216774, 0.752942216779), (0.760524504673, 0.760524504678),
   (0.768151147245, 0.768151147250), (0.775822218315, 0.775822218320), (0.783537791524, 0.783537791529),
   (0.791297940330, 0.791297940335), (0.799102738012, 0.799102738017), (0.806952257667, 0.806952257672),
   (0.814846572214, 0.814846572219), (0.822785754394, 0.822785754399), (0.830769876772, 0.830769876777),
   (0.838799011738, 0.838799011743), (0.846873231507, 0.846873231512), (0.854992608122, 0.854992608127),
   (0.863157213452, 0.863157213457), (0.871367119196, 0.871367119201), (0.879622396885, 0.879622396890),
   (0.887923117879, 0.887923117884), (0.896269353372, 0.896269353377), (0.904661174389, 0.904661174394),
   (0.913098651791, 0.913098651796), (0.921581856275, 0.921581856280), (0.930110858373, 0.930110858378),
   (0.938685728455, 0.938685728460), (0.947306536731, 0.947306536736), (0.955973353247, 0.955973353252),
   (0.964686247892, 0.964686247897), (0.973445290396, 0.973445290401), (0.982250550331, 0.982250550336),
   (0.991102097111, 0.991102097116), (0.999999999998, 1.000000000002)]

/-- The certificate pair for byte value `c` (meaningful for `11 ≤ c`). -/
def c1CertAt (c : Nat) : Q × Q := c1Certs.getD (c - 11) (0, 0)

/-- The decidable certificate condition for the table-fidelity claim at a
byte value with `c/255 ≥ 0.04045` (equivalently `11 ≤ c`). -/
def c1High (c : Fin 256) : Prop :=
  0 ≤ (c1CertAt c.val).1.num ∧ 0 ≤ (c1CertAt c.val).2.num ∧
  0 < (c1CertAt c.val).1.den ∧ 0 < (c1CertAt c.val).2.den ∧
  0 < (encoded_to_linear c).den ∧
  Q.qpow (c1CertAt c.val).1 5 ≤ Q.qpow (tQ c.val) 12 ∧
  Q.qpow (tQ c.val) 12 ≤ Q.qpow (c1CertAt c.val).2 5 ∧
  encoded_to_linear c - epsF32 < (c1CertAt c.val).1 ∧
  (c1CertAt c.val).2 < encoded_to_linear c + epsF32

instance (c : Fin 256) : Decidable (c1High c) :=
  inferInstanceAs (Decidable (_ ∧ _))

/-- The decidable condition for the table-fidelity claim at a byte value
with `c/255 < 0.04045`: the table entry is within `f32` epsilon of the
exact value `(c/255)/12.92`. -/
def c1Low (c : Fin 256) : Prop :=
  0 < (encoded_to_linear c).den ∧
  encoded_to_linear c - epsF32 < lowQ c.val ∧ lowQ c.val < encoded_to_linear c + epsF32

instance (c : Fin 256) : Decidable (c1Low c) :=
  inferInstanceAs (Decidable (_ ∧ _))

/-- Rational interval bounds `(lo, hi)` for `c = 11, …, 255`: the entry for
`c` brackets the real number `(ENCODED_TO_LINEAR_LUT[c]) ^ (1/2.4)` with a
two-sided margin of `10⁻⁶`, which is orders of magnitude wider than the
error of any faithful `powf` implementation. -/
def rtBounds : List (Q × Q) :=
  [(0.093020095, 0.093022096), (0.096737222, 0.096739223), (0.100454347, 0.100456348),
   (0.104171474, 0.104173475), (0.107888599, 0.107890600), (0.111605726, 0.111607727),
   (0.115322855, 0.115324856), (0.119039981, 0.119041982), (0.122757106, 0.122759107),
   (0.126474233, 0.126476234), (0.130191360, 0.130193361), (0.133908488, 0.133910489),
   (0.137625617, 0.137627618), (0.141342743, 0.141344744), (0.145059872, 0.145061873),
   (0.148776994, 0.148778995), (0.152494121, 0.152496122), (0.156211246, 0.156213247),
   (0.159928372, 0.159930373), (0.163645502, 0.163647503), (0.167362627, 0.167364628),
   (0.171079756, 0.171081757), (0.174796879, 0.174798880), (0.178514010, 0.178516011),
   (0.182231131, 0.182233132), (0.185948259, 0.185950260), (0.189665387, 0.189667388),
   (0.193382514, 0.193384515), (0.197099636, 0.197101637), (0.200816766, 0.200818767),
   (0.204533895, 0.204535896), (0.208251024, 0.208253025), (0.211968146, 0.211970147),
   (0.215685275, 0.215687276), (0.219402401, 0.219404402), (0.223119529, 0.223121530),
   (0.226836656, 0.226838657), (0.230553782, 0.230555783), (0.234270911, 0.234272912),
   (0.237988031, 0.237990032), (0.241705159, 0.241707160), (0.245422291, 0.245424292),
   (0.249139411, 0.249141412), (0.252856539, 0.252858540), (0.256573668, 0.256575669),
   (0.260290796, 0.260292797), (0.264007929, 0.264009930), (0.267725046, 0.267727047),
   (0.271442176, 0.271444177), (0.275159297, 0.275161298), (0.278876429, 0.278878430),
   (0.282593558, 0.282595559), (0.286310683, 0.286312684), (0.290027804, 0.290029805),
   (0.293744934, 0.293746935), (0.297462062, 0.297464063), (0.301179187, 0.301181188),
   (0.304896313, 0.304898314), (0.308613438, 0.308615439), (0.312330562, 0.312332563),
   (0.316047688, 0.316049689), (0.319764817, 0.319766818), (0.323481950, 0.323483951),
   (0.327199074, 0.327201075), (0.330916197, 0.330918198), (0.334633326, 0.334635327),
   (0.338350457, 0.338352458), (0.342067578, 0.342069579), (0.345784704, 0.345786705),
   (0.349501833, 0.349503834), (0.353218966, 0.353220967), (0.356936084, 0.356938085),
   (0.360653210, 0.360655211), (0.364370330, 0.364372331), (0.368087465, 0.368089466),
   (0.371804599, 0.371806600), (0.375521726, 0.375523727), (0.379238852, 0.379240853),
   (0.382955970, 0.382957971), (0.386673096, 0.386675097), (0.390390230, 0.390392231),
   (0.394107357, 0.394109358), (0.397824479, 0.397826480), (0.401541610, 0.401543611),
   (0.405258735, 0.405260736), (0.408975858, 0.408977859), (0.412692990, 0.412694991),
   (0.416410119, 0.416412120), (0.420127244, 0.420129245), (0.423844366, 0.423846367),
   (0.427561485, 0.427563486), (0.431278618, 0.431280619), (0.434995747, 0.434997748),
   (0.438712867, 0.438714868), (0.442429999, 0.442432000), (0.446147126, 0.446149127),
   (0.449864258, 0.449866259), (0.453581381, 0.453583382), (0.457298504, 0.457300505),
   (0.461015641, 0.461017642), (0.464732754, 0.464734755), (0.468449880, 0.468451881),
   (0.472167020, 0.472169021), (0.475884140, 0.475886141), (0.479601278, 0.479603279),
   (0.483318389, 0.483320390), (0.487035525, 0.487037526), (0.490752653, 0.490754654),
   (0.494469769, 0.494471770), (0.498186909, 0.498188910), (0.501904035, 0.501906036),
   (0.505621164, 0.505623165), (0.509338281, 0.509340282), (0.513055403, 0.513057404),
   (0.516772537, 0.516774538), (0.520489660, 0.520491661), (0.524206790, 0.524208791),
   (0.527923913, 0.527925914), (0.531641040, 0.531643041), (0.535358170, 0.535360171),
   (0.539075290, 0.539077291), (0.542792431, 0.542794432), (0.546509545, 0.546511546),
   (0.550226670, 0.550228671), (0.553943798, 0.553945799), (0.557660920, 0.557662921),
   (0.561378049, 0.561380050), (0.565095185, 0.565097186), (0.568812304, 0.568814305),
   (0.572529436, 0.572531437), (0.576246556, 0.576248557), (0.579963695, 0.579965696),
   (0.583680803, 0.583682804), (0.587397955, 0.587399956), (0.591115066, 0.591117067),
   (0.594832195, 0.594834196), (0.598549312, 0.598551313), (0.602266438, 0.602268439),
   (0.605983570, 0.605985571), (0.609700688, 0.609702689), (0.613417824, 0.613419825),
   (0.617134959, 0.617136960), (0.620852073, 0.620854074), (0.624569199, 0.624571200),
   (0.628286335, 0.628288336), (0.632003447, 0.632005448), (0.635720598, 0.635722599),
   (0.639437710, 0.639439711), (0.643154851, 0.643156852), (0.646871967, 0.646873968),
   (0.650589083, 0.650591084), (0.654306235, 0.654308236), (0.658023350, 0.658025351),
   (0.661740488, 0.661742489), (0.665457605, 0.665459606), (0.669174733, 0.669176734),
   (0.672891851, 0.672893852), (0.676608982, 0.676610983), (0.680326099, 0.680328100),
   (0.684043233, 0.684045234), (0.687760352, 0.687762353), (0.691477477, 0.691479478),
   (0.695194613, 0.695196614), (0.698911733, 0.698913734), (0.702628869, 0.702630870),
   (0.706346003, 0.706348004), (0.710063124, 0.710065125), (0.713780250, 0.713782251),
   (0.717497385, 0.717499386), (0.721214504, 0.721216505), (0.724931627, 0.724933628),
   (0.728648756, 0.728650757), (0.732365869, 0.732367870), (0.736082998, 0.736084999),
   (0.739800140, 0.739802141), (0.743517266, 0.743519267), (0.747234377, 0.747236378),
   (0.750951539, 0.750953540), (0.754668646, 0.754670647), (0.758385788, 0.758387789),
   (0.762102885, 0.762104886), (0.765820004, 0.765822005), (0.769537144, 0.769539145),
   (0.773254280, 0.773256281), (0.776971393, 0.776973394), (0.780688543, 0.780690544),
   (0.784405659, 0.784407660), (0.788122777, 0.788124778), (0.791839918, 0.791841919),
   (0.795557039, 0.795559040), (0.799274167, 0.799276168), (0.802991292, 0.802993293),
   (0.806708397, 0.806710398), (0.810425552, 0.810427553), (0.814142666, 0.814144667),
   (0.817859814, 0.817861815), (0.821576924, 0.821578925), (0.825294054, 0.825296055),
   (0.829011160, 0.829013161), (0.832728309, 0.832730310), (0.836445422, 0.836447423),
   (0.840162570, 0.840164571), (0.843879681, 0.843881682), (0.847596803, 0.847598804),
   (0.851313949, 0.851315950), (0.855031053, 0.855033054), (0.858748175, 0.858750176),
   (0.862465317, 0.862467318), (0.866182424, 0.866184425), (0.869899566, 0.869901567),
   (0.873616678, 0.873618679), (0.877333830, 0.877335831), (0.881050942, 0.881052943),
   (0.884768068, 0.884770069), (0.888485191, 0.888487192), (0.892202324, 0.892204325),
   (0.895919459, 0.895921460), (0.899636571, 0.899638572), (0.903353710, 0.903355711),
   (0.907070814, 0.907072815), (0.910787942, 0.910789943), (0.914505078, 0.914507079),
   (0.918222226, 0.918224227), (0.921939333, 0.921941334), (0.925656477, 0.925658478),
   (0.929373588, 0.929375589), (0.933090705, 0.933092706), (0.936807843, 0.936809844),
   (0.940524967, 0.940526968), (0.944242091, 0.944244092), (0.947959228, 0.947961229),
   (0.951676345, 0.951678346), (0.955393500, 0.955395501), (0.959110618, 0.959112619),
   (0.962827723, 0.962829724), (0.966544861, 0.966546862), (0.970262004, 0.970264005),
   (0.973979101, 0.973981102), (0.977696224, 0.977698225), (0.981413343, 0.981415344),
   (0.985130515, 0.985132516), (0.988847624, 0.988849625), (0.992564767, 0.992566768),
   (0.996281874, 0.996283875), (0.999999000, 1.000001000)]

/-- The round-trip interval for byte value `c` (meaningful for `11 ≤ c`). -/
def rtBoundAt (c : Nat) : Q × Q := rtBounds.getD (c - 11) (0, 0)

/-- The accuracy hypothesis for the round-trip theorem: on every lookup
table entry that reaches the `powf` branch, `powf(entry, 1.0/2.4)` is a
finite value inside the corresponding interval of `rtBounds`.  Any `powf`
within `10⁻⁶` of the exact real power satisfies this. -/
def powfWithinRTBounds (powf : F → F → F) : Prop :=
  ∀ c : Fin 256, 11 ≤ c.val →
    (powf (F.fin (encoded_to_linear c)) (F.fin ((1.0 : Q) / (2.4 : Q)))).inIcc
      (rtBoundAt c.val).1 (rtBoundAt c.val).2

instance (powf : F → F → F) : Decidable (powfWithinRTBounds powf) :=
  inferInstanceAs (Decidable (∀ _, _))

/-- A concrete `powf` satisfying `powfWithinRTBounds`: on a lookup-table
entry it returns the lower end of that entry's certified interval. -/
def rtWitnessPow : F → F → F := fun x _ =>
  match x with
  | .fin q => .fin (rtBoundAt (ENCODED_TO_LINEAR_LUT.findIdx (fun r => decide (r = q)))).1
  | _ => .nan

/-- A concrete `powf` for the calibration-point theorem: returns a value
inside the certified interval at each of the five inputs the theorem
constrains. -/
def calibWitnessPow : F → F → F := fun x _ =>
  if x = F.fin (0.05448028 : Q) then F.fin (0.297462069 : Q)
  else if x = F.fin (0.8713672 : Q) then F.fin (0.944242136 : Q)
  else if x = F.fin (0.1274377 : Q) then F.fin (0.423844394 : Q)
  else if x = F.fin (0.2158605 : Q) then F.fin (0.527923913 : Q)
  else if x = F.fin (1.0 : Q) then F.fin (0.999999 : Q)
  else F.nan

/-- A `powf` that always returns NaN, usable wherever a theorem does not
constrain `powf` at the inputs involved. -/
def pwNan : F → F → F := fun _ _ => F.nan

/-- The claim that both packed conversions place alpha at the most
significant byte, stated at one color (the specification asserts it for
every color). -/
def claimC5at (c : EncodedColor) : Prop :=
  msbByte c.to_rgba_u32 = c.a.val ∧ msbByte c.to_bgra_u32 = c.a.val

instance (c : EncodedColor) : Decidable (claimC5at c) :=
  inferInstanceAs (Decidable (_ ∧ _))

/-- The claim that the human-readable form ends with the lowercase hex
encoding of the packed RGBA integer, stated at one color. -/
def claimC8at (c : EncodedColor) : Prop :=
  encodedDisplay c =
    "r: " ++ Nat.repr c.r.val ++ ", g: " ++ Nat.repr c.g.val ++
      ", b: " ++ Nat.repr c.b.val ++ ", a: " ++ Nat.repr c.a.val ++ ", " ++
      hexStringLower c.to_rgba_u32

instance (c : EncodedColor) : Decidable (claimC8at c) :=
  inferInstanceAs (Decidable (_ = _))

/-- The reverse transfer written out from the specification's words (§4.1):
"if `input ≥ 0.0031308`, compute `y = 1.055 * input^(1/2.4) - 0.055`; else
`y = 12.92 * input`. Then produce the byte result as `floor(y * 256.0)`
truncated to an 8-bit unsigned integer" — to be compared against the
implementation `linear_to_encoded`. -/
def linear_to_encoded_specVersion (powf : F → F → F) (input : F) : Fin 256 :=
  F.castU8
    (F.mul
      (if F.ge input (F.fin (0.0031308 : Q)) then
        F.sub (F.mul (F.fin (1.055 : Q)) (powf input (F.fin ((1.0 : Q) / (2.4 : Q)))))
          (F.fin (0.055 : Q))
      else
        F.mul (F.fin (12.92 : Q)) input)
      (F.fin (256.0 : Q)))

theorem Q.rval_def (a : Q) : a.rval = (a.num : ℝ) / (a.den : ℝ) := rfl

theorem Q.rval_mul (a b : Q) : (a * b).rval = a.rval * b.rval := by
  show ((a.num * b.num : ℤ) : ℝ) / ((a.den * b.den : ℕ) : ℝ) = _
  push_cast
  rw [Q.rval_def, Q.rval_def, div_mul_div_comm]

theorem Q.rval_sub (a b : Q) (ha : 0 < a.den) (hb : 0 < b.den) :
    (a - b).rval = a.rval - b.rval := by
  have ha' : ((a.den : ℕ) : ℝ) ≠ 0 := by positivity
  have hb' : ((b.den : ℕ) : ℝ) ≠ 0 := by positivity
  show ((a.num * b.den - b.num * a.den : ℤ) : ℝ) / ((a.den * b.den : ℕ) : ℝ) = _
  rw [Q.rval_def, Q.rval_def]
  push_cast
  field_simp
  ring

theorem Q.rval_add (a b : Q) (ha : 0 < a.den) (hb : 0 < b.den) :
    (a + b).rval = a.rval + b.rval := by
  have ha' : ((a.den : ℕ) : ℝ) ≠ 0 := by positivity
  have hb' : ((b.den : ℕ) : ℝ) ≠ 0 := by positivity
  show ((a.num * b.den + b.num * a.den : ℤ) : ℝ) / ((a.den * b.den : ℕ) : ℝ) = _
  rw [Q.rval_def, Q.rval_def]
  push_cast
  field_simp

theorem Q.le_iff_rval (a b : Q) (ha : 0 < a.den) (hb : 0 < b.den) :
    a ≤ b ↔ a.rval ≤ b.rval := by
  have ha' : (0 : ℝ) < (a.den : ℕ) := by positivity
  have hb' : (0 : ℝ) < (b.den : ℕ) := by positivity
  show a.num * (b.den : ℤ) ≤ b.num * (a.den : ℤ) ↔ _
  rw [Q.rval_def, Q.rval_def, div_le_div_iff₀ ha' hb']
  exact_mod_cast Iff.rfl

theorem Q.lt_iff_rval (a b : Q) (ha : 0 < a.den) (hb : 0 < b.den) :
    a < b ↔ a.rval < b.rval := by
  have ha' : (0 : ℝ) < (a.den : ℕ) := by positivity
  have hb' : (0 : ℝ) < (b.den : ℕ) := by positivity
  show a.num * (b.den : ℤ) < b.num * (a.den : ℤ) ↔ _
  rw [Q.rval_def, Q.rval_def, div_lt_div_iff₀ ha' hb']
  exact_mod_cast Iff.rfl

theorem Q.floor_rval (a : Q) : Q.floor a = ⌊a.rval⌋ := by
  have h : a.rval = (((a.num : ℚ) / (a.den : ℚ) : ℚ) : ℝ) := by
    rw [Q.rval_def]
    push_cast
    rfl
  rw [h, Rat.floor_cast, Rat.floor_intCast_div_natCast]
  exact Int.fdiv_eq_ediv a.num (by positivity)

theorem Q.rval_qpow (a : Q) (n : ℕ) : (a.qpow n).rval = a.rval ^ n := by
  show ((a.num ^ n : ℤ) : ℝ) / ((a.den ^ n : ℕ) : ℝ) = _
  rw [Q.rval_def]
  push_cast
  rw [div_pow]

theorem Q.rval_natQ (n : ℕ) : (natQ n).rval = n := by
  show ((Int.ofNat n : ℤ) : ℝ) / ((1 : ℕ) : ℝ) = _
  push_cast
  simp

theorem Q.den_mul (a b : Q) : (a * b).den = a.den * b.den := rfl

theorem Q.den_sub (a b : Q) : (a - b).den = a.den * b.den := rfl

theorem Q.den_add (a b : Q) : (a + b).den = a.den * b.den := rfl

theorem Q.rval_nonneg (a : Q) (h : 0 ≤ a.num) : 0 ≤ a.rval := by
  rw [Q.rval_def]
  have : (0 : ℝ) ≤ (a.num : ℤ) := by exact_mod_cast h
  positivity

theorem F.castU8_of_isNegOrNaN (y : F) (h : y.isNegOrNaN) : F.castU8 y = ⟨0, by omega⟩ := by
  cases y with
  | fin q =>
    have hnum : q.num < 0 := by
      have h' : q.num * (1 : ℤ) < 0 * (q.den : ℤ) := h
      omega
    have hfl : Q.floor q ≤ 0 := by
      unfold Q.floor
      rcases Nat.eq_zero_or_pos q.den with hd | hd
      · simp [hd]
      · rw [Int.fdiv_eq_ediv _ (by positivity)]
        have : q.num / (q.den : ℤ) < 0 := Int.ediv_neg' hnum (by exact_mod_cast hd)
        omega
    apply Fin.ext
    show (min 255 (Q.floor q)).toNat = 0
    omega
  | nan => rfl
  | inf => exact absurd h (by simp [F.isNegOrNaN])
  | ninf => rfl

theorem F.castU8_of_ge255 (y : F) (hwf : y.Wf)
    (h : F.ge y (F.fin (255.0 : Q)) = true) : F.castU8 y = ⟨255, by omega⟩ := by
  cases y with
  | fin q =>
    have hle : (255.0 : Q) ≤ q := by
      have := h
      simp only [F.ge, decide_eq_true_eq] at this
      exact this
    have hd : 0 < q.den := hwf
    have h255 : (255 : ℤ) ≤ Q.floor q := by
      rw [Q.floor_rval, Int.le_floor]
      have hr := (Q.le_iff_rval (255.0 : Q) q (by decide) hd).mp hle
      have h255v : (255.0 : Q).rval = 255 := by
        show ((Int.ofNat 2550 : ℤ) : ℝ) / ((10 : ℕ) : ℝ) = _
        norm_num
      rw [h255v] at hr
      exact_mod_cast hr
    apply Fin.ext
    show (min 255 (Q.floor q)).toNat = 255
    omega
  | nan => simp [F.ge] at h
  | inf => rfl
  | ninf => simp [F.ge] at h

theorem linear_to_encoded_else (powf : F → F → F) (x : F)
    (h : F.ge x (F.fin (0.0031308 : Q)) = false) :
    linear_to_encoded powf x =
      F.castU8 (F.mul (F.mul (F.fin (12.92 : Q)) x) (F.fin (256.0 : Q))) := by
  simp [linear_to_encoded, encoded_f32_scaled, h]

theorem rpow_bracket_of_qpow (x r s : Q)
    (hxnum : 0 ≤ x.num) (hrnum : 0 ≤ r.num) (hsnum : 0 ≤ s.num)
    (hxden : 0 < x.den) (hrden : 0 < r.den) (hsden : 0 < s.den)
    (h1 : Q.qpow r 5 ≤ Q.qpow x 12) (h2 : Q.qpow x 12 ≤ Q.qpow s 5) :
    r.rval ≤ x.rval ^ (2.4 : ℝ) ∧ x.rval ^ (2.4 : ℝ) ≤ s.rval := by
  have hx0 : 0 ≤ x.rval := Q.rval_nonneg x hxnum
  have hr0 : 0 ≤ r.rval := Q.rval_nonneg r hrnum
  have hs0 : 0 ≤ s.rval := Q.rval_nonneg s hsnum
  have hy0 : 0 ≤ x.rval ^ (2.4 : ℝ) := Real.rpow_nonneg hx0 _
  have key : (x.rval ^ (2.4 : ℝ)) ^ (5 : ℕ) = x.rval ^ (12 : ℕ) := by
    rw [← Real.rpow_natCast (x.rval ^ (2.4 : ℝ)) 5, ← Real.rpow_mul hx0,
      ← Real.rpow_natCast x.rval 12]
    norm_num
  have h1' : r.rval ^ (5 : ℕ) ≤ x.rval ^ (12 : ℕ) := by
    have := (Q.le_iff_rval _ _ (by show 0 < r.den ^ 5; positivity)
      (by show 0 < x.den ^ 12; positivity)).mp h1
    rwa [Q.rval_qpow, Q.rval_qpow] at this
  have h2' : x.rval ^ (12 : ℕ) ≤ s.rval ^ (5 : ℕ) := by
    have := (Q.le_iff_rval _ _ (by show 0 < x.den ^ 12; positivity)
      (by show 0 < s.den ^ 5; positivity)).mp h2
    rwa [Q.rval_qpow, Q.rval_qpow] at this
  rw [← key] at h1' h2'
  exact ⟨(pow_le_pow_iff_left₀ hr0 hy0 (by norm_num)).mp h1',
    (pow_le_pow_iff_left₀ hy0 hs0 (by norm_num)).mp h2'⟩

theorem scaled_rval (t : Q) (ht : 0 < t.den) :
    (((1.055 : Q) * t - (0.055 : Q)) * (256.0 : Q)).rval
      = ((1055 : ℝ) / 1000 * t.rval - 55 / 1000) * 256 := by
  rw [Q.rval_mul, Q.rval_sub _ _ (by show 0 < 1000 * t.den; positivity) (by decide)]
  have h1 : (1.055 : Q).rval = (1055 : ℝ) / 1000 := by
    show ((Int.ofNat 1055 : ℤ) : ℝ) / ((10 ^ 3 : ℕ) : ℝ) = _
    norm_num
  have h2 : (0.055 : Q).rval = (55 : ℝ) / 1000 := by
    show ((Int.ofNat 55 : ℤ) : ℝ) / ((10 ^ 3 : ℕ) : ℝ) = _
    norm_num
  have h3 : (256.0 : Q).rval = (256 : ℝ) := by
    show ((Int.ofNat 2560 : ℤ) : ℝ) / ((10 ^ 1 : ℕ) : ℝ) = _
    norm_num
  rw [Q.rval_mul, h1, h2, h3]

theorem lte_eq_of_powf_bounds (powf : F → F → F) (v lo hi : Q) (c : ℕ)
    (hthr : F.ge (F.fin v) (F.fin (0.0031308 : Q)) = true)
    (hin : (powf (F.fin v) (F.fin ((1.0 : Q) / (2.4 : Q)))).inIcc lo hi)
    (hlo : 0 < lo.den) (hhi : 0 < hi.den) (hc : c < 256)
    (hblo : natQ c ≤ ((1.055 : Q) * lo - (0.055 : Q)) * (256.0 : Q))
    (hbhi : c = 255 ∨ ((1.055 : Q) * hi - (0.055 : Q)) * (256.0 : Q) < natQ (c + 1)) :
    linear_to_encoded powf (F.fin v) = ⟨c, hc⟩ := by
  cases hpow : powf (F.fin v) (F.fin ((1.0 : Q) / (2.4 : Q))) with
  | fin q =>
    rw [hpow] at hin
    obtain ⟨hqden, hloq, hqhi⟩ := hin
    have hscaled : encoded_f32_scaled powf (F.fin v) =
        F.fin (((1.055 : Q) * q - (0.055 : Q)) * (256.0 : Q)) := by
      simp only [encoded_f32_scaled, hthr, hpow]
      rfl
    show F.castU8 (encoded_f32_scaled powf (F.fin v)) = ⟨c, hc⟩
    rw [hscaled]
    have hwr := scaled_rval q hqden
    have hLr := scaled_rval lo hlo
    have hHr := scaled_rval hi hhi
    have hql : lo.rval ≤ q.rval := (Q.le_iff_rval lo q hlo hqden).mp hloq
    have hqh : q.rval ≤ hi.rval := (Q.le_iff_rval q hi hqden hhi).mp hqhi
    have hblo' : (c : ℝ) ≤ ((1055 : ℝ) / 1000 * lo.rval - 55 / 1000) * 256 := by
      have h' := (Q.le_iff_rval (natQ c) _ Nat.one_pos
        (by show 0 < 1000 * lo.den * 1000 * 10; positivity)).mp hblo
      rwa [Q.rval_natQ, hLr] at h'
    have hcle : (c : ℝ) ≤ (((1.055 : Q) * q - (0.055 : Q)) * (256.0 : Q)).rval := by
      rw [hwr]; linarith
    apply Fin.ext
    show (min 255 (Q.floor (((1.055 : Q) * q - (0.055 : Q)) * (256.0 : Q)))).toNat = c
    rw [Q.floor_rval]
    rcases hbhi with h255 | hlt
    · subst h255
      have hfl : (255 : ℤ) ≤ ⌊(((1.055 : Q) * q - (0.055 : Q)) * (256.0 : Q)).rval⌋ :=
        Int.le_floor.mpr (by exact_mod_cast hcle)
      omega
    · have hbhi' : ((1055 : ℝ) / 1000 * hi.rval - 55 / 1000) * 256 < (c : ℝ) + 1 := by
        have h' := (Q.lt_iff_rval _ (natQ (c + 1))
          (by show 0 < 1000 * hi.den * 1000 * 10; positivity) Nat.one_pos).mp hlt
        rw [Q.rval_natQ, hHr] at h'
        push_cast at h'
        linarith
      have hlt' : (((1.055 : Q) * q - (0.055 : Q)) * (256.0 : Q)).rval < (c : ℝ) + 1 := by
        rw [hwr]; linarith
      have hfl : ⌊(((1.055 : Q) * q - (0.055 : Q)) * (256.0 : Q)).rval⌋ = (c : ℤ) := by
        rw [Int.floor_eq_iff]
        constructor
        · exact_mod_cast hcle
        · push_cast
          exact hlt'
      rw [hfl]
      omega
  | nan => rw [hpow] at hin; exact absurd hin (by simp [F.inIcc])
  | inf => rw [hpow] at hin; exact absurd hin (by simp [F.inIcc])
  | ninf => rw [hpow] at hin; exact absurd hin (by simp [F.inIcc])

/-- C2: for every 32-bit float input (any float, NaN and infinities
included), `linear_to_encoded` returns the byte obtained by computing
`y = 1.055 * input^(1/2.4) - 0.055` when `input ≥ 0.0031308`, else
`y = 12.92 * input`, then multiplying `y` by `256.0` (not `255.0`) and
truncating the product to an 8-bit unsigned integer; the operation is total
(it always returns a byte, never an error). -/
theorem c2_reverse_transfer_follows_spec (powf : F → F → F) (input : F) :
    linear_to_encoded powf input = linear_to_encoded_specVersion powf input ∧
      (linear_to_encoded powf input).val ≤ 255 :=
  ⟨rfl, Fin.is_le _⟩

/-- C5 counterexample: the claim "`to_rgba_u32` places the alpha channel at
the most-significant byte" is false: for the color `(r=1, g=0, b=0, a=0)`
the most significant byte of the packed value is `r = 1`, not `a = 0`. -/
theorem c5_counterexample : ¬ claimC5at (EncodedColor.new 1 0 0 0) := by decide

/-- C5 amended: in both packings the most-significant byte is `r`
(respectively `b` for BGRA) and the alpha channel sits at the
least-significant byte; `from_rgba_u32`/`from_bgra_u32` read alpha from the
least-significant byte. -/
theorem c5_alpha_at_lsb (c : EncodedColor) (n : ℕ) :
    msbByte c.to_rgba_u32 = c.r.val ∧ lsbByte c.to_rgba_u32 = c.a.val ∧
    msbByte c.to_bgra_u32 = c.b.val ∧ lsbByte c.to_bgra_u32 = c.a.val ∧
    (EncodedColor.from_rgba_u32 n).a.val = lsbByte n ∧
    (EncodedColor.from_rgba_u32 n).r.val = msbByte n ∧
    (EncodedColor.from_bgra_u32 n).a.val = lsbByte n := by
  obtain ⟨⟨r, hr⟩, ⟨g, hg⟩, ⟨b, hb⟩, ⟨a, ha⟩⟩ := c
  refine ⟨?_, ?_, ?_, ?_, rfl, rfl, rfl⟩ <;>
    simp only [EncodedColor.to_rgba_u32, EncodedColor.to_bgra_u32, msbByte, lsbByte] <;>
    omega

/-- C6: the color `(r=107, g=158, b=190, a=255)` packs to `0x6b9ebeff` in
RGBA and `0xbe9e6bff` in BGRA, and both packed values unpack back to the
original color. -/
theorem c6_packed_roundtrip :
    (EncodedColor.new 107 158 190 255).to_rgba_u32 = 0x6b9ebeff ∧
    EncodedColor.from_rgba_u32 0x6b9ebeff = EncodedColor.new 107 158 190 255 ∧
    (EncodedColor.new 107 158 190 255).to_bgra_u32 = 0xbe9e6bff ∧
    EncodedColor.from_bgra_u32 0xbe9e6bff = EncodedColor.new 107 158 190 255 := by
  decide

/-- C7 counterexample: the claim that `to_encoded_space` sets the alpha
byte to `round(a * 255)` is false: for `a = 0.003` the code truncates
`0.003 * 255 = 0.765` to the byte `0`, while rounding would give `1`. -/
theorem c7_counterexample :
    ¬ ((((LinearColor.new (F.fin (0.0 : Q)) (F.fin (0.0 : Q)) (F.fin (0.0 : Q))
          (F.fin (0.003 : Q))).to_encoded_space pwNan).a.val : ℤ)
        = Q.qround ((0.003 : Q) * (255.0 : Q))) := by
  decide

/-- C7 amended: alpha bypasses the gamma transfer function in both
directions — `to_linear` sets the alpha field to the linear scaling
`a / 255` (while `r`, `g`, `b` go through `encoded_to_linear`), and
`to_encoded_space` sets the alpha byte to the saturating truncation of
`a * 255` (not its rounding), while `r`, `g`, `b` go through
`linear_to_encoded`. -/
theorem c7_alpha_linear_scaling :
    (∀ c : EncodedColor,
      (c.to_linear).r = F.fin (encoded_to_linear c.r) ∧
      (c.to_linear).g = F.fin (encoded_to_linear c.g) ∧
      (c.to_linear).b = F.fin (encoded_to_linear c.b) ∧
      ∃ q, (c.to_linear).a = F.fin q ∧ q.Wf ∧ q.rval = (c.a.val : ℝ) / 255) ∧
    (∀ (powf : F → F → F) (lc : LinearColor),
      (lc.to_encoded_space powf).r = linear_to_encoded powf lc.r ∧
      (lc.to_encoded_space powf).g = linear_to_encoded powf lc.g ∧
      (lc.to_encoded_space powf).b = linear_to_encoded powf lc.b ∧
      (lc.to_encoded_space powf).a = F.castU8 (F.mul lc.a (F.fin (255.0 : Q)))) := by
  constructor
  · intro c
    refine ⟨rfl, rfl, rfl, natQ c.a.val / (255.0 : Q), rfl, ?_, ?_⟩
    · show 0 < 1 * 2550
      omega
    · show ((Int.ofNat c.a.val * 10 : ℤ) : ℝ) / ((1 * 2550 : ℕ) : ℝ) = _
      push_cast
      field_simp
      ring
  · intro powf lc
    exact ⟨rfl, rfl, rfl, rfl⟩

/-- C10: the float-to-byte narrowing in `linear_to_encoded` and in the
alpha channel of `to_encoded_space` saturates rather than wraps: whenever
the scaled value `y * 256.0` (respectively `a * 255.0` for alpha) is
negative or NaN the resulting byte is `0`; whenever it is `255` or greater
the resulting byte is `255` (not a modular reduction); and the result is
always a byte (`≤ 255`), so no input panics or wraps. -/
theorem c10_narrowing_saturates (powf : F → F → F) (x a : F) :
    (F.isNegOrNaN (encoded_f32_scaled powf x) → linear_to_encoded powf x = ⟨0, by omega⟩) ∧
    (F.Wf (encoded_f32_scaled powf x) →
      F.ge (encoded_f32_scaled powf x) (F.fin (255.0 : Q)) = true →
      linear_to_encoded powf x = ⟨255, by omega⟩) ∧
    (linear_to_encoded powf x).val ≤ 255 ∧
    (F.isNegOrNaN (F.mul a (F.fin (255.0 : Q))) →
      ((LinearColor.new x x x a).to_encoded_space powf).a = ⟨0, by omega⟩) ∧
    (F.Wf (F.mul a (F.fin (255.0 : Q))) →
      F.ge (F.mul a (F.fin (255.0 : Q))) (F.fin (255.0 : Q)) = true →
      ((LinearColor.new x x x a).to_encoded_space powf).a = ⟨255, by omega⟩) := by
  refine ⟨?_, ?_, Fin.is_le _, ?_, ?_⟩
  · intro h
    exact F.castU8_of_isNegOrNaN _ h
  · intro hwf h
    exact F.castU8_of_ge255 _ hwf h
  · intro h
    exact F.castU8_of_isNegOrNaN _ h
  · intro hwf h
    exact F.castU8_of_ge255 _ hwf h

/-- C10 witness: at the finite input `-1` the scaled value is negative and
the cast saturates to `0`; at alpha `300` the scaled value exceeds `255`
and the cast saturates to `255` (instead of wrapping modulo 256 to `44`). -/
theorem c10_narrowing_saturates_witness :
    F.isNegOrNaN (encoded_f32_scaled pwNan (F.fin ⟨-1, 1⟩)) ∧
    linear_to_encoded pwNan (F.fin ⟨-1, 1⟩) = ⟨0, by omega⟩ ∧
    F.Wf (F.mul (F.fin ⟨300, 1⟩) (F.fin (255.0 : Q))) ∧
    F.ge (F.mul (F.fin ⟨300, 1⟩) (F.fin (255.0 : Q))) (F.fin (255.0 : Q)) = true ∧
    ((LinearColor.new (F.fin ⟨0, 1⟩) (F.fin ⟨0, 1⟩) (F.fin ⟨0, 1⟩)
        (F.fin ⟨300, 1⟩)).to_encoded_space pwNan).a = ⟨255, by omega⟩ := by
  refine ⟨by decide, (c10_narrowing_saturates pwNan (F.fin ⟨-1, 1⟩) (F.fin ⟨300, 1⟩)).1 (by decide),
    by decide, by decide,
    (c10_narrowing_saturates pwNan (F.fin ⟨0, 1⟩) (F.fin ⟨300, 1⟩)).2.2.2.2 (by decide) (by decide)⟩

/-- C3: for every byte value `c`, the round trip
`linear_to_encoded (encoded_to_linear c) = c` — in particular
`encoded_to_linear 255 = 1.0` maps back to `255` under the
scale-by-256-then-truncate step.  The hypothesis constrains the abstracted
`powf` to return, on each lookup-table entry, a finite value within the
certified interval `rtBounds` (a `±10⁻⁶` neighbourhood of the exact real
power, far wider than the error of any faithful `f32` `powf`). -/
theorem c3_roundtrip_all_bytes (powf : F → F → F) (h : powfWithinRTBounds powf) :
    ∀ c : Fin 256, linear_to_encoded powf (F.fin (encoded_to_linear c)) = c := by
  have hlow : ∀ d : Fin 256, d.val < 11 →
      F.ge (F.fin (encoded_to_linear d)) (F.fin (0.0031308 : Q)) = false ∧
      F.castU8 (F.mul (F.mul (F.fin (12.92 : Q)) (F.fin (encoded_to_linear d)))
        (F.fin (256.0 : Q))) = d := by decide
  have hcert : ∀ d : Fin 256, 11 ≤ d.val →
      F.ge (F.fin (encoded_to_linear d)) (F.fin (0.0031308 : Q)) = true ∧
      0 < (rtBoundAt d.val).1.den ∧ 0 < (rtBoundAt d.val).2.den ∧
      natQ d.val ≤ ((1.055 : Q) * (rtBoundAt d.val).1 - (0.055 : Q)) * (256.0 : Q) ∧
      (d.val = 255 ∨
        ((1.055 : Q) * (rtBoundAt d.val).2 - (0.055 : Q)) * (256.0 : Q) < natQ (d.val + 1)) := by
    decide
  intro c
  rcases Nat.lt_or_ge c.val 11 with h10 | h11
  · obtain ⟨hge, hval⟩ := hlow c h10
    rw [linear_to_encoded_else powf _ hge]
    exact hval
  · obtain ⟨hge, hld, hhd, hblo, hbhi⟩ := hcert c h11
    have hmain := lte_eq_of_powf_bounds powf (encoded_to_linear c) _ _ c.val hge
      (h c h11) hld hhd c.isLt hblo hbhi
    exact hmain.trans (Fin.eta c c.isLt)

/-- C3 witness: the concrete `rtWitnessPow` satisfies the accuracy
hypothesis, and with it the round trip holds at the top byte value `255`. -/
theorem c3_roundtrip_all_bytes_witness :
    powfWithinRTBounds rtWitnessPow ∧
      linear_to_encoded rtWitnessPow (F.fin (encoded_to_linear ⟨255, by omega⟩))
        = ⟨255, by omega⟩ := by
  have hw : powfWithinRTBounds rtWitnessPow := by decide
  exact ⟨hw, c3_roundtrip_all_bytes rtWitnessPow hw ⟨255, by omega⟩⟩

/-- C4: the transfer functions hit the calibration points: the table gives
`encoded_to_linear 0 = 0.0`, `encoded_to_linear 255 = 1.0` exactly and the
values at `66, 240, 100, 128` within `f32` epsilon of the quoted decimals;
and, for any `powf` within the certified interval of the exact real power
at the five decode inputs, `linear_to_encoded` maps `0.0 ↦ 0`, `1.0 ↦ 255`,
`0.05448028 ↦ 66`, `0.8713672 ↦ 240`, `0.1274377 ↦ 100`, `0.2158605 ↦ 128`. -/
theorem c4_calibration_points (powf : F → F → F)
    (h66 : (powf (F.fin (0.05448028 : Q)) (F.fin ((1.0 : Q) / (2.4 : Q)))).inIcc
      (0.297462069 : Q) (0.297464070 : Q))
    (h240 : (powf (F.fin (0.8713672 : Q)) (F.fin ((1.0 : Q) / (2.4 : Q)))).inIcc
      (0.944242136 : Q) (0.944244137 : Q))
    (h100 : (powf (F.fin (0.1274377 : Q)) (F.fin ((1.0 : Q) / (2.4 : Q)))).inIcc
      (0.423844394 : Q) (0.423846395 : Q))
    (h128 : (powf (F.fin (0.2158605 : Q)) (F.fin ((1.0 : Q) / (2.4 : Q)))).inIcc
      (0.527923913 : Q) (0.527925914 : Q))
    (h1 : (powf (F.fin (1.0 : Q)) (F.fin ((1.0 : Q) / (2.4 : Q)))).inIcc
      (0.999999 : Q) (1.000001 : Q)) :
    encoded_to_linear 0 = (0.0 : Q) ∧
    encoded_to_linear 255 = (1.0 : Q) ∧
    Q.within (encoded_to_linear 66) (0.05448028 : Q) epsF32 ∧
    Q.within (encoded_to_linear 240) (0.8713671 : Q) epsF32 ∧
    Q.within (encoded_to_linear 100) (0.1274377 : Q) epsF32 ∧
    Q.within (encoded_to_linear 128) (0.2158605 : Q) epsF32 ∧
    linear_to_encoded powf (F.fin (0.0 : Q)) = 0 ∧
    linear_to_encoded powf (F.fin (1.0 : Q)) = 255 ∧
    linear_to_encoded powf (F.fin (0.05448028 : Q)) = 66 ∧
    linear_to_encoded powf (F.fin (0.8713672 : Q)) = 240 ∧
    linear_to_encoded powf (F.fin (0.1274377 : Q)) = 100 ∧
    linear_to_encoded powf (F.fin (0.2158605 : Q)) = 128 := by
  refine ⟨by decide, by decide, by decide, by decide, by decide, by decide, ?_, ?_, ?_, ?_, ?_, ?_⟩
  · rw [linear_to_encoded_else powf _ (by decide)]
    decide
  · exact (lte_eq_of_powf_bounds powf (1.0 : Q) _ _ 255 (by decide) h1 (by decide) (by decide)
      (by omega) (by decide) (Or.inl rfl)).trans (by decide)
  · exact (lte_eq_of_powf_bounds powf (0.05448028 : Q) _ _ 66 (by decide) h66 (by decide)
      (by decide) (by omega) (by decide) (Or.inr (by decide))).trans (by decide)
  · exact (lte_eq_of_powf_bounds powf (0.8713672 : Q) _ _ 240 (by decide) h240 (by decide)
      (by decide) (by omega) (by decide) (Or.inr (by decide))).trans (by decide)
  · exact (lte_eq_of_powf_bounds powf (0.1274377 : Q) _ _ 100 (by decide) h100 (by decide)
      (by decide) (by omega) (by decide) (Or.inr (by decide))).trans (by decide)
  · exact (lte_eq_of_powf_bounds powf (0.2158605 : Q) _ _ 128 (by decide) h128 (by decide)
      (by decide) (by omega) (by decide) (Or.inr (by decide))).trans (by decide)

/-- C4 witness: the concrete `calibWitnessPow` satisfies every interval
hypothesis, and with it the five nontrivial decode calibration points
evaluate to the claimed bytes. -/
theorem c4_calibration_points_witness :
    (calibWitnessPow (F.fin (0.05448028 : Q)) (F.fin ((1.0 : Q) / (2.4 : Q)))).inIcc
      (0.297462069 : Q) (0.297464070 : Q) ∧
    (calibWitnessPow (F.fin (1.0 : Q)) (F.fin ((1.0 : Q) / (2.4 : Q)))).inIcc
      (0.999999 : Q) (1.000001 : Q) ∧
    linear_to_encoded calibWitnessPow (F.fin (1.0 : Q)) = 255 ∧
    linear_to_encoded calibWitnessPow (F.fin (0.05448028 : Q)) = 66 ∧
    linear_to_encoded calibWitnessPow (F.fin (0.8713672 : Q)) = 240 ∧
    linear_to_encoded calibWitnessPow (F.fin (0.1274377 : Q)) = 100 ∧
    linear_to_encoded calibWitnessPow (F.fin (0.2158605 : Q)) = 128 := by
  have h := c4_calibration_points calibWitnessPow (by decide) (by decide) (by decide)
    (by decide) (by decide)
  obtain ⟨-, -, -, -, -, -, -, h255, h66, h240, h100, h128⟩ := h
  exact ⟨by decide, by decide, h255, h66, h240, h100, h128⟩

theorem epsF32_rval : epsF32.rval = 1 / 2 ^ 23 := by
  show ((Int.ofNat 11920928955078125 : ℤ) : ℝ) / ((10 ^ 23 : ℕ) : ℝ) = _
  norm_num

/-- C1: for every byte value `c`, the forward transfer `encoded_to_linear c`
(an index into the 256-entry lookup table) is within `f32` epsilon
(`2⁻²³`) of the exact real sRGB EOTF of `x = c/255`: the value
`((x + 0.055) / 1.055) ^ 2.4` when `x ≥ 0.04045` and `x / 12.92`
otherwise.  (The source builds the table by evaluating this formula in
64-bit precision and rounding to `f32`, which lands within `f32` epsilon of
the exact real value.) -/
theorem c1_table_matches_eotf (c : Fin 256) :
    |(encoded_to_linear c).rval -
      (if (0.04045 : ℚ) ≤ (c.val : ℚ) / 255 then
        (((c.val : ℝ) / 255 + 0.055) / 1.055) ^ (2.4 : ℝ)
      else ((c.val : ℝ) / 255) / 12.92)| < 1 / 2 ^ 23 := by
  have hhigh : ∀ d : Fin 256, 11 ≤ d.val → c1High d := by decide
  have hlow : ∀ d : Fin 256, d.val < 11 → c1Low d := by decide
  by_cases h : (0.04045 : ℚ) ≤ (c.val : ℚ) / 255
  · rw [if_pos h]
    have h11 : 11 ≤ c.val := by
      by_contra hlt
      push_neg at hlt
      have h10 : (c.val : ℚ) ≤ 10 := by exact_mod_cast Nat.lt_succ_iff.mp hlt
      have hq : (c.val : ℚ) / 255 < 0.04045 := by
        rw [div_lt_iff₀ (by norm_num)]
        norm_num
        linarith
      exact absurd h (not_le.mpr hq)
    obtain ⟨hr0, hs0, hrd, hsd, hLd, hp1, hp2, hcl, hcu⟩ := hhigh c h11
    have htx : 0 ≤ (tQ c.val).num := Int.ofNat_nonneg _
    have htd : 0 < (tQ c.val).den := by show 0 < 269025; omega
    have hbr := rpow_bracket_of_qpow (tQ c.val) _ _ htx hr0 hs0 htd hrd hsd hp1 hp2
    have htr : (tQ c.val).rval = ((c.val : ℝ) / 255 + 0.055) / 1.055 := by
      show ((Int.ofNat (1000 * c.val + 14025) : ℤ) : ℝ) / ((269025 : ℕ) : ℝ) = _
      push_cast
      norm_num
      field_simp
      ring
    rw [htr] at hbr
    obtain ⟨hbl, hbu⟩ := hbr
    have h1 : (encoded_to_linear c).rval - 1 / 2 ^ 23 < (c1CertAt c.val).1.rval := by
      have h' := (Q.lt_iff_rval _ _
        (Nat.mul_pos hLd (by show (0:ℕ) < 10 ^ 23; positivity)) hrd).mp hcl
      rwa [Q.rval_sub _ _ hLd (by show (0:ℕ) < 10 ^ 23; positivity), epsF32_rval] at h'
    have h2 : (c1CertAt c.val).2.rval < (encoded_to_linear c).rval + 1 / 2 ^ 23 := by
      have h' := (Q.lt_iff_rval _ _ hsd
        (Nat.mul_pos hLd (by show (0:ℕ) < 10 ^ 23; positivity))).mp hcu
      rwa [Q.rval_add _ _ hLd (by show (0:ℕ) < 10 ^ 23; positivity), epsF32_rval] at h'
    rw [abs_sub_lt_iff]
    constructor
    · linarith
    · linarith
  · rw [if_neg h]
    have h10 : c.val < 11 := by
      by_contra hge
      push_neg at hge
      have h11q : (11 : ℚ) ≤ (c.val : ℚ) := by exact_mod_cast hge
      have hq : (0.04045 : ℚ) ≤ (c.val : ℚ) / 255 := by
        rw [le_div_iff₀ (by norm_num)]
        norm_num
        linarith
      exact h hq
    obtain ⟨hLd, hcl, hcu⟩ := hlow c h10
    have hlr : (lowQ c.val).rval = ((c.val : ℝ) / 255) / 12.92 := by
      show ((Int.ofNat (100 * c.val) : ℤ) : ℝ) / ((329460 : ℕ) : ℝ) = _
      push_cast
      norm_num
      field_simp
      ring
    have hlowd : 0 < (lowQ c.val).den := by show 0 < 329460; omega
    have h1 : (encoded_to_linear c).rval - 1 / 2 ^ 23 < (lowQ c.val).rval := by
      have h' := (Q.lt_iff_rval _ _
        (Nat.mul_pos hLd (by show (0:ℕ) < 10 ^ 23; positivity)) hlowd).mp hcl
      rwa [Q.rval_sub _ _ hLd (by show (0:ℕ) < 10 ^ 23; positivity), epsF32_rval] at h'
    have h2 : (lowQ c.val).rval < (encoded_to_linear c).rval + 1 / 2 ^ 23 := by
      have h' := (Q.lt_iff_rval _ _ hlowd
        (Nat.mul_pos hLd (by show (0:ℕ) < 10 ^ 23; positivity))).mp hcu
      rwa [Q.rval_add _ _ hLd (by show (0:ℕ) < 10 ^ 23; positivity), epsF32_rval] at h'
    rw [abs_sub_lt_iff]
    constructor
    · linarith
    · linarith

theorem hexDigitsAux_two (x : ℕ) (h1 : 16 ≤ x) (h2 : x < 256) :
    hexDigitsAux 8 x = [x % 16, x / 16] := by
  simp only [hexDigitsAux]
  rw [if_neg (by omega), if_neg (by omega), if_pos (by omega)]
  have hx : x / 16 % 16 = x / 16 := by omega
  rw [hx]

theorem hexDigitsAux_packed (r g b a : ℕ) (hr1 : 16 ≤ r) (hr : r < 256) (hg : g < 256)
    (hb : b < 256) (ha : a < 256) :
    hexDigitsAux 8 (a + 2 ^ 8 * b + 2 ^ 16 * g + 2 ^ 24 * r) =
      [a % 16, a / 16, b % 16, b / 16, g % 16, g / 16, r % 16, r / 16] := by
  simp only [hexDigitsAux]
  repeat rw [if_neg (by omega)]
  simp only [List.cons.injEq, and_true]
  refine ⟨?_, ?_, ?_, ?_, ?_, ?_, ?_, ?_⟩ <;> omega

theorem hexStringLower_packed (r g b a : ℕ) (hr1 : 16 ≤ r) (hr : r < 256)
    (hg1 : 16 ≤ g) (hg : g < 256) (hb1 : 16 ≤ b) (hb : b < 256)
    (ha1 : 16 ≤ a) (ha : a < 256) :
    hexStringLower (a + 2 ^ 8 * b + 2 ^ 16 * g + 2 ^ 24 * r) =
      hexStringLower r ++ hexStringLower g ++ hexStringLower b ++ hexStringLower a := by
  have h2 : ∀ x, 16 ≤ x → x < 256 →
      hexStringLower x = ⟨[hexCharLower (x / 16), hexCharLower (x % 16)]⟩ := by
    intro x hx1 hx2
    unfold hexStringLower
    rw [if_neg (by omega)]
    unfold hexDigitsLE
    rw [hexDigitsAux_two x hx1 hx2]
    rfl
  rw [h2 r hr1 hr, h2 g hg1 hg, h2 b hb1 hb, h2 a ha1 ha]
  unfold hexStringLower
  rw [if_neg (by omega)]
  unfold hexDigitsLE
  rw [hexDigitsAux_packed r g b a hr1 hr hg hb ha]
  rfl

/-- C8 counterexample: the claim that the human-readable form ends with the
lowercase hex of the packed RGBA integer is false: the color
`(r=0, g=255, b=0, a=255)` displays as
`"r: 0, g: 255, b: 0, a: 255, 0ff0ff"` (each channel hex-formatted
separately, unpadded), while the packed integer `0x00ff00ff` formats as
`"ff00ff"`. -/
theorem c8_counterexample : ¬ claimC8at (EncodedColor.new 0 255 0 255) := by decide

/-- C8 amended: the dedicated lowercase and uppercase hex formatters output
the packed RGBA integer's hex digits (so `(107,158,190,255)` gives
`"6b9ebeff"` and `"0x6B9EBEFF"`), and the human-readable form shows all
four channel values followed by each channel's own unpadded lowercase hex
digits — which coincides with the packed RGBA integer's hex exactly when
every channel is at least `0x10`, as it is for `(107,158,190,255)`. -/
theorem c8_hex_formatting :
    encodedLowerHex (EncodedColor.new 107 158 190 255) = "6b9ebeff" ∧
    encodedUpperHexAlt (EncodedColor.new 107 158 190 255) = "0x6B9EBEFF" ∧
    encodedDisplay (EncodedColor.new 107 158 190 255) =
      "r: 107, g: 158, b: 190, a: 255, 6b9ebeff" ∧
    (∀ c : EncodedColor, encodedLowerHex c = hexStringLower c.to_rgba_u32) ∧
    (∀ c : EncodedColor, 16 ≤ c.r.val → 16 ≤ c.g.val → 16 ≤ c.b.val → 16 ≤ c.a.val →
      claimC8at c) := by
  refine ⟨by decide, by decide, by decide, fun c => rfl, ?_⟩
  intro c hr hg hb ha
  unfold claimC8at encodedDisplay
  have key := hexStringLower_packed c.r.val c.g.val c.b.val c.a.val
    hr c.r.isLt hg c.g.isLt hb c.b.isLt ha c.a.isLt
  rw [show c.to_rgba_u32 =
    c.a.val + 2 ^ 8 * c.b.val + 2 ^ 16 * c.g.val + 2 ^ 24 * c.r.val from rfl, key]
  simp only [String.append_assoc]

/-- C8 witness: the amended display statement instantiated at the color
`(107, 158, 190, 255)`, whose channels are all at least `0x10`. -/
theorem c8_hex_formatting_witness : claimC8at (EncodedColor.new 107 158 190 255) :=
  c8_hex_formatting.2.2.2.2 (EncodedColor.new 107 158 190 255)
    (by decide) (by decide) (by decide) (by decide)

theorem nextElementU8_ok_some (xs : List SeqElem) (v : Fin 256) (rest : List SeqElem)
    (h : nextElementU8 xs = .ok (some v, rest)) :
    xs = SeqElem.int (v.val : ℤ) :: rest ∧ (SeqElem.int (v.val : ℤ)).validU8 := by
  cases xs with
  | nil => simp [nextElementU8] at h
  | cons e tail =>
    cases e with
    | int n =>
      by_cases hr : 0 ≤ n ∧ n < 256
      · rw [nextElementU8, dif_pos hr] at h
        obtain ⟨h1, h2⟩ := by simpa using h
        subst h2
        rw [← h1]
        have hn : (((⟨n.toNat, by omega⟩ : Fin 256)).val : ℤ) = n := by
          simp [Int.toNat_of_nonneg hr.1]
        rw [hn]
        exact ⟨rfl, hr⟩
      · rw [nextElementU8, dif_neg hr] at h
        simp at h
    | nonIntScalar => simp [nextElementU8] at h

theorem nextElementU8_ok_none (xs : List SeqElem) (rest : List SeqElem)
    (h : nextElementU8 xs = .ok (none, rest)) : xs = [] := by
  cases xs with
  | nil => rfl
  | cons e tail =>
    cases e with
    | int n =>
      by_cases hr : 0 ≤ n ∧ n < 256
      · rw [nextElementU8, dif_pos hr] at h
        simp at h
      · rw [nextElementU8, dif_neg hr] at h
        simp at h
    | nonIntScalar => simp [nextElementU8] at h

theorem nextElementU8_cons_valid (e : SeqElem) (rest : List SeqElem) (h : e.validU8) :
    ∃ v : Fin 256, nextElementU8 (e :: rest) = .ok (some v, rest) := by
  cases e with
  | int n =>
    obtain ⟨h1, h2⟩ := h
    exact ⟨⟨n.toNat, by omega⟩, by rw [nextElementU8, dif_pos ⟨h1, h2⟩]⟩
  | nonIntScalar => exact absurd h (by simp [SeqElem.validU8])

theorem nextElementU8_cons_invalid (e : SeqElem) (rest : List SeqElem) (h : ¬ e.validU8) :
    nextElementU8 (e :: rest) = .error .invalidValue := by
  cases e with
  | int n =>
    rw [nextElementU8, dif_neg (by simpa [SeqElem.validU8] using h)]
  | nonIntScalar => rfl

theorem visitSeq_ok (xs : List SeqElem) (c : EncodedColor) (rest : List SeqElem)
    (h : visitSeq xs = .ok (c, rest)) : xs = encodedColorSeq c ++ rest := by
  unfold visitSeq at h
  split at h
  · simp at h
  · simp at h
  next r xs1 h1 =>
    split at h
    · simp at h
    · simp at h
    next g xs2 h2 =>
      split at h
      · simp at h
      · simp at h
      next b xs3 h3 =>
        split at h
        · simp at h
        · simp at h
        next a xs4 h4 =>
          obtain ⟨hc, hrest⟩ := by simpa using h
          obtain ⟨e1, -⟩ := nextElementU8_ok_some _ _ _ h1
          obtain ⟨e2, -⟩ := nextElementU8_ok_some _ _ _ h2
          obtain ⟨e3, -⟩ := nextElementU8_ok_some _ _ _ h3
          obtain ⟨e4, -⟩ := nextElementU8_ok_some _ _ _ h4
          subst hc hrest
          rw [e1, e2, e3, e4]
          rfl


/-- C9: deserialization of `EncodedColor` from a sequence succeeds exactly
when the sequence is the four channel bytes in `r, g, b, a` order (so
exactly 4 elements, each an integer in `0..=255`); a sequence of the wrong
length whose elements are all bytes fails with an invalid-length error, and
a 4-element sequence containing a negative, fractional or too-large
element fails with an invalid-value error. -/
theorem c9_deserialization (xs : List SeqElem) :
    (∀ c : EncodedColor, deserializeEncodedColor xs = .ok c ↔ xs = encodedColorSeq c) ∧
    (xs.length ≠ 4 → (∀ e ∈ xs, e.validU8) →
      ∃ k, deserializeEncodedColor xs = .error (.invalidLength k)) ∧
    (xs.length = 4 → (∃ e ∈ xs, ¬ e.validU8) →
      deserializeEncodedColor xs = .error .invalidValue) := by
  refine ⟨?_, ?_, ?_⟩
  · intro c
    constructor
    · intro h
      unfold deserializeEncodedColor at h
      split at h
      · simp at h
      · rename_i c' rest hv
        split at h
        · rename_i hemp
          have hc9 : c' = c := by simpa using h
          have hxs := visitSeq_ok xs c' rest hv
          rw [hc9, List.isEmpty_iff.mp hemp] at hxs
          simpa using hxs
        · simp at h
    · intro h
      subst h
      have hstep : ∀ (v : Fin 256) (rest : List SeqElem),
          nextElementU8 (SeqElem.int (v.val : ℤ) :: rest) = .ok (some v, rest) := by
        intro v rest
        rw [nextElementU8, dif_pos ⟨by omega, by exact_mod_cast v.isLt⟩]
        have hv : ((v.val : ℤ).toNat) = v.val := Int.toNat_natCast v.val
        simp [hv]
      unfold deserializeEncodedColor visitSeq encodedColorSeq
      simp only [hstep]
      rfl
  · intro hlen hval
    match xs, hlen with
    | [], _ => exact ⟨0, rfl⟩
    | [e1], _ =>
      obtain ⟨v1, hv1⟩ := nextElementU8_cons_valid e1 [] (hval e1 (by simp))
      refine ⟨1, ?_⟩
      unfold deserializeEncodedColor visitSeq
      simp only [hv1]
      rfl
    | [e1, e2], _ =>
      obtain ⟨v1, hv1⟩ := nextElementU8_cons_valid e1 [e2] (hval e1 (by simp))
      obtain ⟨v2, hv2⟩ := nextElementU8_cons_valid e2 [] (hval e2 (by simp))
      refine ⟨2, ?_⟩
      unfold deserializeEncodedColor visitSeq
      simp only [hv1, hv2]
      rfl
    | [e1, e2, e3], _ =>
      obtain ⟨v1, hv1⟩ := nextElementU8_cons_valid e1 [e2, e3] (hval e1 (by simp))
      obtain ⟨v2, hv2⟩ := nextElementU8_cons_valid e2 [e3] (hval e2 (by simp))
      obtain ⟨v3, hv3⟩ := nextElementU8_cons_valid e3 [] (hval e3 (by simp))
      refine ⟨3, ?_⟩
      unfold deserializeEncodedColor visitSeq
      simp only [hv1, hv2, hv3]
      rfl
    | e1 :: e2 :: e3 :: e4 :: rest, hlen =>
      obtain ⟨v1, hv1⟩ := nextElementU8_cons_valid e1 (e2 :: e3 :: e4 :: rest)
        (hval e1 (by simp))
      obtain ⟨v2, hv2⟩ := nextElementU8_cons_valid e2 (e3 :: e4 :: rest) (hval e2 (by simp))
      obtain ⟨v3, hv3⟩ := nextElementU8_cons_valid e3 (e4 :: rest) (hval e3 (by simp))
      obtain ⟨v4, hv4⟩ := nextElementU8_cons_valid e4 rest (hval e4 (by simp))
      have hrest : rest ≠ [] := by
        intro hr
        subst hr
        simp at hlen
      refine ⟨(e1 :: e2 :: e3 :: e4 :: rest).length, ?_⟩
      unfold deserializeEncodedColor visitSeq
      simp only [hv1, hv2, hv3, hv4]
      rw [if_neg (by simpa [List.isEmpty_iff] using hrest)]
  · intro hlen hex
    match xs, hlen with
    | [e1, e2, e3, e4], _ =>
      by_cases hval1 : e1.validU8
      · obtain ⟨v1, hv1⟩ := nextElementU8_cons_valid e1 [e2, e3, e4] hval1
        by_cases hval2 : e2.validU8
        · obtain ⟨v2, hv2⟩ := nextElementU8_cons_valid e2 [e3, e4] hval2
          by_cases hval3 : e3.validU8
          · obtain ⟨v3, hv3⟩ := nextElementU8_cons_valid e3 [e4] hval3
            by_cases hval4 : e4.validU8
            · exfalso
              obtain ⟨e, he, hne⟩ := hex
              simp at he
              rcases he with rfl | rfl | rfl | rfl <;> contradiction
            · have hv4 := nextElementU8_cons_invalid e4 [] hval4
              unfold deserializeEncodedColor visitSeq
              simp only [hv1, hv2, hv3, hv4]
          · have hv3 := nextElementU8_cons_invalid e3 [e4] hval3
            unfold deserializeEncodedColor visitSeq
            simp only [hv1, hv2, hv3]
        · have hv2 := nextElementU8_cons_invalid e2 [e3, e4] hval2
          unfold deserializeEncodedColor visitSeq
          simp only [hv1, hv2]
      · have hv1 := nextElementU8_cons_invalid e1 [e2, e3, e4] hval1
        unfold deserializeEncodedColor visitSeq
        simp only [hv1]

/-- C9 witness: the sequence `[50, 50, 50, 255]` deserializes to the color
`(50, 50, 50, 255)`; the sequence `[20, 50, 50, 256]` (an out-of-range
element) fails with an invalid-value error; the 3-element sequence
`[20, 50, 245]` fails with an invalid-length error. -/
theorem c9_deserialization_witness :
    deserializeEncodedColor
        [SeqElem.int 50, SeqElem.int 50, SeqElem.int 50, SeqElem.int 255]
      = .ok (EncodedColor.new 50 50 50 255) ∧
    deserializeEncodedColor
        [SeqElem.int 20, SeqElem.int 50, SeqElem.int 50, SeqElem.int 256]
      = .error .invalidValue ∧
    (∃ k, deserializeEncodedColor [SeqElem.int 20, SeqElem.int 50, SeqElem.int 245]
      = .error (.invalidLength k)) := by
  refine ⟨?_, ?_, ?_⟩
  · exact ((c9_deserialization _).1 (EncodedColor.new 50 50 50 255)).mpr (by decide)
  · exact (c9_deserialization _).2.2 (by decide) (by decide)
  · exact (c9_deserialization _).2.1 (by decide) (by decide)
